import Mathlib

/-!
Shallow embedding of the dcrlibwallet wallet-lifecycle and synchronization
orchestration layer (wallet.go together with the sync source file), with
theorems settling the specification claims about passphrase hygiene, wallet
locking, sync start guards, SPV peer validation, RPC connection caching,
cancellation, and rescans.
-/

namespace Dcrlibwallet

/-- Error codes of the library. The constant definitions (`ErrInvalidPeers`,
`ErrWalletNotLoaded`, ...) live in a repository file outside the provided
sources; the constructors here follow the error taxonomy of the spec and the
constant names referenced by the provided sources. `invalid` models
`ErrInvalid`, the generic invalid code (returned both for a rejected RPC
credential and for a rescan already running), and `invalidAuth` models the
distinct `InvalidAuth` kind that the taxonomy lists. -/
inductive Err where
  | emptySeed
  | invalidPeers
  | invalidAddress
  | syncAlreadyInProgress
  | walletNotLoaded
  | notConnected
  | invalid
  | contextCanceled
  | unavailable
  | invalidAuth
  | other
  deriving DecidableEq, Repr

/-! ## Passphrase handling (wallet.go) -/

/-- Byte-buffer wipe loop `for i := range buf \x7b buf[i] = 0 \x7d`, run by the
deferred functions of `UnlockWallet`, `ChangePrivatePassphrase` and
`ChangePublicPassphrase`. A buffer is a list of byte values. -/
def wipe (buf : List Nat) : List Nat :=
  buf.map (fun _ => 0)

/-- Predicate used to express the spec sentence: every byte of the returned
buffer is zero. -/
def allZero (buf : List Nat) : Bool :=
  buf.all (fun b => b == 0)

/-- Bytes of `wallet.InsecurePubPassphrase` = "public", substituted by
`ChangePublicPassphrase` for an empty passphrase. -/
def insecurePubPassphrase : List Nat :=
  [112, 117, 98, 108, 105, 99]

/-- Result of `UnlockWallet`: the returned error and the caller-visible
content of the passphrase buffer after the call returns. -/
structure UnlockResult where
  err : Option Err
  buf : List Nat
  deriving DecidableEq, Repr

/-- Embedding of `LibWallet.UnlockWallet` (wallet.go). `walletLoaded` is the
`ok` result of `walletLoader.LoadedWallet()`; `unlockErr` is the outcome of
the external `loadedWallet.Unlock` call. The wiping defer is registered only
after the loaded-wallet check, so the early `wallet has not been loaded`
return leaves the buffer untouched. -/
def unlockWallet (walletLoaded : Bool) (unlockErr : Option Err)
    (privPass : List Nat) : UnlockResult :=
  if walletLoaded = false then
    { err := some .walletNotLoaded, buf := privPass }
  else
    { err := unlockErr, buf := wipe privPass }

/-- Result of a passphrase-change call: the returned error and the
caller-visible contents of both passphrase buffers after the call returns. -/
structure ChangeResult where
  err : Option Err
  oldBuf : List Nat
  newBuf : List Nat
  deriving DecidableEq, Repr

/-- Embedding of `LibWallet.ChangePrivatePassphrase` (wallet.go). The wiping
defer is registered first, so both buffers are wiped on every path;
`changeErr` is the (already translated) outcome of the external
`wallet.ChangePrivatePassphrase` call. -/
def changePrivatePassphrase (changeErr : Option Err)
    (oldPass newPass : List Nat) : ChangeResult :=
  { err := changeErr, oldBuf := wipe oldPass, newBuf := wipe newPass }

/-- Embedding of `LibWallet.ChangePublicPassphrase` (wallet.go). The defer is
registered first and wipes the local slice variables; when a passphrase is
empty the local variable is reassigned to the insecure default, so the defer
wipes that copy and the caller's (empty) buffer is returned untouched. -/
def changePublicPassphrase (changeErr : Option Err)
    (oldPass newPass : List Nat) : ChangeResult :=
  { err := changeErr
    oldBuf := if oldPass.length = 0 then oldPass else wipe oldPass
    newBuf := if newPass.length = 0 then newPass else wipe newPass }

/-! ## Wallet locking (wallet.go) -/

/-- The borrowed wallet handle, as far as `LockWallet` observes it: the
`Locked()` flag. -/
structure WalletH where
  locked : Bool
  deriving DecidableEq, Repr

/-- External `wallet.Lock()` capability: after it returns the wallet is
locked. -/
def lockOp (w : WalletH) : WalletH :=
  { w with locked := true }

/-- Result of `LockWallet`: the wallet state afterwards, and whether the
underlying `Lock()` operation was invoked. -/
structure LockWalletResult where
  wallet : WalletH
  lockInvoked : Bool
  deriving DecidableEq, Repr

/-- Embedding of `LibWallet.LockWallet` (wallet.go): the source reads
`if lw.wallet.Locked() \x7b lw.wallet.Lock() \x7d`, i.e. it invokes `Lock()`
exactly when `Locked()` already reports true. -/
def lockWallet (w : WalletH) : LockWalletResult :=
  if w.locked = true then
    { wallet := lockOp w, lockInvoked := true }
  else
    { wallet := w, lockInvoked := false }

/-! ## Sync data model (sync source file) -/

/-- An RPC client handle (`chain.RPCClient`), identified opaquely. -/
structure RPCClient where
  id : Nat
  deriving DecidableEq, Repr

/-- A peer or server address: a list of characters (Go string). -/
abbrev Addr : Type := List Char

/-- A network backend attached to the wallet: either the SPV syncer built by
`SpvSync` (carrying its persistent peer list) or the backend built from an
RPC client by `RpcSync`. -/
inductive Backend where
  | spv (persistentPeers : List Addr)
  | rpc (client : RPCClient)
  deriving DecidableEq, Repr

/-- The `LibWallet` state observed by the sync layer: the loader's
loaded-wallet flag, the network backend slots of the wallet and of its
loader, and the `syncData` fields (cached RPC client, cancellation handle,
progress listeners in registration order, rescanning flag). A cancellation
handle is `some ()` when stored, `none` when absent (nil). Listeners are
identified by number. -/
structure LWState where
  walletLoaded : Bool
  walletBackend : Option Backend
  loaderBackend : Option Backend
  rpcClient : Option RPCClient
  cancelSync : Option Unit
  syncProgressListeners : List Nat
  rescanning : Bool
  deriving DecidableEq, Repr

/-- Rescan phase constants of the `blockchainsync` package. -/
inductive Phase where
  | PROGRESS
  | FINISH
  deriving DecidableEq, Repr

/-- A notification delivered to one progress listener. -/
inductive Event where
  | onSyncError (listener : Nat) (code : Int)
  | onPeerDisconnected (listener : Nat) (count : Int)
  | onSynced (listener : Nat) (value : Bool)
  | onRescan (listener : Nat) (scannedThrough : Int) (phase : Phase)
  deriving DecidableEq, Repr

/-- Embedding of `LibWallet.AddSyncProgressListener`: appends the listener,
so the list order is registration order. -/
def addSyncProgressListener (st : LWState) (l : Nat) : LWState :=
  { st with syncProgressListeners := st.syncProgressListeners ++ [l] }

/-- Modelled from the spec: `notifySyncError` is defined in a repository file
outside the provided sources; per the spec the broadcaster pushes the
classified error code to every registered listener synchronously, in
registration order, without aborting the caller. -/
def notifySyncError (listeners : List Nat) (code : Int) : List Event :=
  listeners.map (fun l => Event.onSyncError l code)

/-- Embedding of `LibWallet.getLoadedWalletForSyncing`: `none` means the
loaded wallet is available for syncing; otherwise the guard error. -/
def getLoadedWalletForSyncing (st : LWState) : Option Err :=
  if st.walletLoaded = true then
    if st.walletBackend.isSome then some .syncAlreadyInProgress else none
  else
    some .walletNotLoaded

/-! ## SpvSync -/

/-- Result of a sync start call: the synchronous error, the state after the
call, the notifications emitted synchronously during the call, and whether
the background run-loop task was launched. -/
structure SyncStartResult where
  err : Option Err
  state : LWState
  events : List Event
  taskLaunched : Bool
  deriving Repr

/-- Embedding of `strings.Split(peerAddresses, ";")` from `SpvSync`: splits
the character list at every semicolon; the split of the empty string is one
empty entry, and adjacent semicolons produce empty entries, exactly as in
Go. -/
def splitSemi : Addr → List Addr
  | [] => [[]]
  | c :: rest =>
    if c = ';' then [] :: splitSemi rest
    else match splitSemi rest with
      | [] => [[c]]
      | h :: t => (c :: h) :: t

/-- The peer-validation loop of `SpvSync`: each address is normalized via
`utils.NormalizeAddress` (supplied as the oracle `normalize`, which returns
`none` on failure); a failing entry triggers a non-fatal
`notifySyncError(3, ...)` and is skipped, a successful entry is appended to
the valid list. Returns the valid peer addresses and the emitted events, in
source order. -/
def filterPeers (normalize : Addr → Option Addr) (listeners : List Nat) :
    List Addr → List Addr × List Event
  | [] => ([], [])
  | a :: rest =>
    let r := filterPeers normalize listeners rest
    match normalize a with
    | some p => (p :: r.1, r.2)
    | none => (r.1, notifySyncError listeners 3 ++ r.2)

/-- Tail of `SpvSync` after peer validation: builds the SPV syncer (with the
persistent peers when the valid list is non-empty), attaches it to both the
wallet and the loader, stores the cancellation handle, and launches the
background run loop. -/
def spvAttach (st : LWState) (validPeers : List Addr) : SyncStartResult :=
  let syncer := Backend.spv validPeers
  { err := none
    state := { st with
               walletBackend := some syncer
               loaderBackend := some syncer
               cancelSync := some () }
    events := []
    taskLaunched := true }

/-- Embedding of `LibWallet.SpvSync`. The guard runs first; when the peer
address string is non-empty it is split on every semicolon and validated,
and the whole call fails with `ErrInvalidPeers` exactly when no entry
survives; otherwise the syncer is attached and the background task
launched. -/
def spvSync (normalize : Addr → Option Addr) (st : LWState)
    (peerAddresses : Addr) : SyncStartResult :=
  match getLoadedWalletForSyncing st with
  | some e => { err := some e, state := st, events := [], taskLaunched := false }
  | none =>
    if peerAddresses = [] then
      spvAttach st []
    else
      let fp := filterPeers normalize st.syncProgressListeners
        (splitSemi peerAddresses)
      if fp.1.length = 0 then
        { err := some .invalidPeers
          state := st
          events := fp.2
          taskLaunched := false }
      else
        let r := spvAttach st fp.1
        { r with events := fp.2 ++ r.events }

/-- Terminal outcome of a backend run loop (`syncer.Run`). -/
inductive RunOutcome where
  | ok
  | canceled
  | deadlineExceeded
  | failed
  deriving DecidableEq, Repr

/-- The background goroutine launched by `SpvSync` and `RpcSync`: classifies
the run-loop return value into the cancellation (code 1), deadline (code 2)
and unclassified (code -1) notifications. It does not touch any `syncData`
field; in particular the stored cancellation handle is left as it was. -/
def syncTask (st : LWState) (outcome : RunOutcome) : LWState × List Event :=
  match outcome with
  | .ok => (st, [])
  | .canceled => (st, notifySyncError st.syncProgressListeners 1)
  | .deadlineExceeded => (st, notifySyncError st.syncProgressListeners 2)
  | .failed => (st, notifySyncError st.syncProgressListeners (-1))

/-! ## RpcSync -/

/-- Outcome of `chainClient.Start` on a fresh connection. -/
inductive StartOutcome where
  | ok
  | invalidAuth
  | canceled
  | otherFailure
  deriving DecidableEq, Repr

/-- Oracle for the external steps of `connectToRpcClient`:
`normalizeResult` is `utils.NormalizeAddress(networkAddress,
JSONRPCClientPort)`; `newClientErr` is the translated error of
`chain.NewRPCClient` (`none` on success, in which case `newClient` is the
fresh client); `startResult` classifies `chainClient.Start`. -/
structure RpcEnv where
  normalizeResult : Option String
  newClientErr : Option Err
  newClient : RPCClient
  startResult : StartOutcome
  deriving Repr

/-- Result of `connectToRpcClient`: the returned client and error, the state
after the call, and whether the call reached address normalization and a
connection attempt (both skipped on the cached-client path). -/
structure ConnectResult where
  client : Option RPCClient
  err : Option Err
  state : LWState
  normalizeCalled : Bool
  connectAttempted : Bool
  deriving Repr

/-- Embedding of `LibWallet.connectToRpcClient`. A cached client is returned
as is. Otherwise the address is normalized (`ErrInvalidAddress` on failure),
a client is created (translated error on failure), `Start` is run
(`ErrInvalid` on rejected credentials, `ErrContextCanceled` on cancellation,
`ErrUnavailable` otherwise), and on success the client is cached under the
mutex. -/
def connectToRpcClient (st : LWState) (env : RpcEnv) : ConnectResult :=
  match st.rpcClient with
  | some cached =>
    { client := some cached
      err := none
      state := st
      normalizeCalled := false
      connectAttempted := false }
  | none =>
    match env.normalizeResult with
    | none =>
      { client := none
        err := some .invalidAddress
        state := st
        normalizeCalled := true
        connectAttempted := false }
    | some _ =>
      match env.newClientErr with
      | some e =>
        { client := none
          err := some e
          state := st
          normalizeCalled := true
          connectAttempted := true }
      | none =>
        match env.startResult with
        | .invalidAuth =>
          { client := none
            err := some .invalid
            state := st
            normalizeCalled := true
            connectAttempted := true }
        | .canceled =>
          { client := none
            err := some .contextCanceled
            state := st
            normalizeCalled := true
            connectAttempted := true }
        | .otherFailure =>
          { client := none
            err := some .unavailable
            state := st
            normalizeCalled := true
            connectAttempted := true }
        | .ok =>
          { client := some env.newClient
            err := none
            state := { st with rpcClient := some env.newClient }
            normalizeCalled := true
            connectAttempted := true }

/-- Embedding of `LibWallet.RpcSync`: the guard runs first, the cancellation
handle is stored before connecting, the connect step may fail synchronously,
and on success the backend built from the client is attached to the loader
and the wallet, every listener is synchronously told
`OnPeerDisconnected(-1)`, and the background run loop is launched. -/
def rpcSync (st : LWState) (env : RpcEnv) : SyncStartResult :=
  match getLoadedWalletForSyncing st with
  | some e => { err := some e, state := st, events := [], taskLaunched := false }
  | none =>
    let st1 := { st with cancelSync := some () }
    let c := connectToRpcClient st1 env
    match c.client, c.err with
    | _, some e =>
      { err := some e, state := c.state, events := [], taskLaunched := false }
    | some client, none =>
      let backend := Backend.rpc client
      { err := none
        state := { c.state with
                   loaderBackend := some backend
                   walletBackend := some backend }
        events := st.syncProgressListeners.map
          (fun l => Event.onPeerDisconnected l (-1))
        taskLaunched := true }
    | none, none =>
      { err := some .other
        state := c.state
        events := []
        taskLaunched := false }

/-! ## CancelSync -/

/-- Result of `CancelSync`: whether the stored cancellation handle was
invoked, and the notifications delivered. -/
structure CancelSyncResult where
  cancelInvoked : Bool
  events : List Event
  deriving DecidableEq, Repr

/-- Embedding of `LibWallet.CancelSync`: invokes the cancellation handle only
when one is stored, then notifies every listener with `OnSynced(false)`, in
registration order, without waiting for the background task. -/
def cancelSyncOp (st : LWState) : CancelSyncResult :=
  let invoked := match st.cancelSync with
    | some _ => true
    | none => false
  { cancelInvoked := invoked
    events := st.syncProgressListeners.map (fun l => Event.onSynced l false) }

/-! ## RescanBlocks -/

/-- One item received from the `wallet.RescanProgress` channel: whether
`p.Err` is non-nil, and the `ScannedThrough` height (an int32, modelled as an
integer; the claims involve no overflow). -/
structure RescanItem where
  errItem : Bool
  scannedThrough : Int
  deriving DecidableEq, Repr

/-- The `for p := range progress` loop of the rescan goroutine, given the
items the channel delivers before closing, started with accumulator `total`.
Returns the emitted events, the final `totalHeight` accumulator, and whether
the loop exited early on an error item (`p.Err != nil` logs and returns). On
a non-error item the accumulator grows by `p.ScannedThrough` and every
listener receives `OnRescan(p.ScannedThrough, PROGRESS)`. -/
def rescanLoop (listeners : List Nat) (total : Int) :
    List RescanItem → List Event × Int × Bool
  | [] => ([], total, false)
  | p :: rest =>
    if p.errItem = true then
      ([], total, true)
    else
      let evs := listeners.map
        (fun l => Event.onRescan l p.scannedThrough Phase.PROGRESS)
      let r := rescanLoop listeners (total + p.scannedThrough) rest
      (evs ++ r.1, r.2.1, r.2.2)

/-- Result of the rescan goroutine: every event it emitted, and the value of
the `rescanning` flag after it exits (the deferred cleanup sets it false). -/
structure RescanTaskResult where
  events : List Event
  rescanningAfter : Bool
  deriving DecidableEq, Repr

/-- The rescan goroutine of `RescanBlocks`: consumes the progress channel
(`items` are the delivered items, `ctxCanceled` tells whether the governing
context was canceled by the time the channel closed). On an error item the
task returns with no terminal notification; on channel closure it emits one
final `OnRescan(totalHeight, PROGRESS)` per listener when the context was
canceled and `OnRescan(totalHeight, FINISH)` otherwise. The deferred cleanup
clears the `rescanning` flag on every exit path. -/
def rescanTask (listeners : List Nat) (items : List RescanItem)
    (ctxCanceled : Bool) : RescanTaskResult :=
  match rescanLoop listeners 0 items with
  | (evs, total, errExit) =>
    if errExit = true then
      { events := evs
        rescanningAfter := false }
    else
      { events := evs ++ listeners.map (fun l => Event.onRescan l total
          (if ctxCanceled then Phase.PROGRESS else Phase.FINISH))
        rescanningAfter := false }

/-- Result of the synchronous part of `RescanBlocks`. -/
structure RescanStartResult where
  err : Option Err
  taskLaunched : Bool
  deriving DecidableEq, Repr

/-- Embedding of the synchronous part of `LibWallet.RescanBlocks`:
`wallet.NetworkBackend()` errors when no backend is attached
(`ErrNotConnected`), a set `rescanning` flag yields `ErrInvalid`, and
otherwise the rescan goroutine is launched. -/
def rescanBlocks (st : LWState) : RescanStartResult :=
  if st.walletBackend.isNone then
    { err := some .notConnected, taskLaunched := false }
  else if st.rescanning = true then
    { err := some .invalid, taskLaunched := false }
  else
    { err := none, taskLaunched := true }

/-! ## Helper observations used by the theorems -/

/-- Recognizes an `OnSyncError` notification. -/
def isSyncErrorEvent : Event → Bool
  | Event.onSyncError _ _ => true
  | _ => false

/-- Number of `OnSyncError` notifications in an event list. -/
def countSyncErrors (evs : List Event) : Nat :=
  evs.countP isSyncErrorEvent

/-- The per-item `OnRescan(scannedThrough, PROGRESS)` notifications of a
rescan trace, one batch per item, in order. -/
def progressEvents (listeners : List Nat) : List RescanItem → List Event
  | [] => []
  | p :: rest =>
    listeners.map (fun l => Event.onRescan l p.scannedThrough Phase.PROGRESS)
      ++ progressEvents listeners rest

/-- The accumulated `totalHeight` of a rescan trace: the sum of the
`ScannedThrough` values of its items. -/
def totalScanned (items : List RescanItem) : Int :=
  (items.map (fun p => p.scannedThrough)).sum

/-! ## Concrete instances used by witnesses and counterexamples -/

/-- A loaded wallet with no backend, no cached RPC client, no cancellation
handle, two registered listeners. -/
def readyState : LWState :=
  { walletLoaded := true
    walletBackend := none
    loaderBackend := none
    rpcClient := none
    cancelSync := none
    syncProgressListeners := [0, 1]
    rescanning := false }

/-- A loaded wallet with no listeners registered yet. -/
def idleState : LWState :=
  { readyState with syncProgressListeners := [] }

/-- A wallet that is not loaded but still holds a cached RPC client. -/
def unloadedCachedState : LWState :=
  { readyState with
    walletLoaded := false
    rpcClient := some { id := 5 } }

/-- A loaded wallet with no backend and a cached RPC client. -/
def readyCachedState : LWState :=
  { readyState with rpcClient := some { id := 5 } }

/-- An RPC environment whose server rejects the supplied credentials: the
address normalizes, the client is created, and `Start` reports invalid
authentication. -/
def envAuthReject : RpcEnv :=
  { normalizeResult := some "127.0.0.1:19109"
    newClientErr := none
    newClient := { id := 0 }
    startResult := StartOutcome.invalidAuth }

/-- A peer-address normalization oracle accepting exactly the entry
`good`. -/
def normOracle (a : Addr) : Option Addr :=
  if a = "good".toList then some "good:19108".toList else none

/-! ## Lemmas -/

lemma allZero_wipe (buf : List Nat) : allZero (wipe buf) = true := by
  induction buf with
  | nil => rfl
  | cons b rest ih => simp [wipe, allZero]

lemma allZero_wipe_or_empty (buf : List Nat) :
    allZero (if buf.length = 0 then buf else wipe buf) = true := by
  cases buf with
  | nil => rfl
  | cons b rest => simpa using allZero_wipe (b :: rest)

lemma filterPeers_valid_nil_iff (normalize : Addr → Option Addr)
    (ls : List Nat) (as : List Addr) :
    (filterPeers normalize ls as).1 = [] ↔ ∀ a ∈ as, normalize a = none := by
  induction as with
  | nil => simp [filterPeers]
  | cons a rest ih =>
    cases hn : normalize a with
    | some p => simp [filterPeers, hn, ih]
    | none => simp [filterPeers, hn, ih]

lemma countSyncErrors_filterPeers (normalize : Addr → Option Addr)
    (ls : List Nat) (as : List Addr) :
    countSyncErrors (filterPeers normalize ls as).2 =
      (as.countP (fun a => (normalize a).isNone)) * ls.length := by
  induction as with
  | nil => simp [filterPeers, countSyncErrors]
  | cons a rest ih =>
    cases hn : normalize a with
    | some p =>
      simp [filterPeers, hn, countSyncErrors, List.countP_cons] at ih ⊢
      exact ih
    | none =>
      simp [filterPeers, hn, countSyncErrors, List.countP_cons,
        List.countP_append, notifySyncError, List.countP_map,
        Function.comp, isSyncErrorEvent] at ih ⊢
      have hall : List.countP
          (isSyncErrorEvent ∘ fun l => Event.onSyncError l 3) ls =
          ls.length := by
        simp [isSyncErrorEvent, Function.comp]
      rw [hall, ih]
      ring

lemma guard_cases (st : LWState) :
    getLoadedWalletForSyncing st = none
    ∨ getLoadedWalletForSyncing st = some .walletNotLoaded
    ∨ getLoadedWalletForSyncing st = some .syncAlreadyInProgress := by
  unfold getLoadedWalletForSyncing
  split
  · split
    · right; right; rfl
    · left; rfl
  · right; left; rfl

lemma spvSync_success_state (normalize : Addr → Option Addr)
    (st : LWState) (peers : Addr)
    (h : (spvSync normalize st peers).err = none) :
    ∃ pl, (spvSync normalize st peers).state =
      { st with
        walletBackend := some (Backend.spv pl)
        loaderBackend := some (Backend.spv pl)
        cancelSync := some () } := by
  unfold spvSync at h ⊢
  cases hg : getLoadedWalletForSyncing st with
  | some e => simp [hg] at h
  | none =>
    simp only [hg]
    by_cases hpe : peers = []
    · exact ⟨[], by simp [hpe, spvAttach]⟩
    · simp only [if_neg hpe] at h ⊢
      by_cases hlen :
          (filterPeers normalize st.syncProgressListeners
            (splitSemi peers)).1.length = 0
      · simp [hg, hlen] at h
      · exact ⟨(filterPeers normalize st.syncProgressListeners
          (splitSemi peers)).1, by simp [hg, hlen, spvAttach]⟩

lemma rpcSync_success_state (st : LWState) (env : RpcEnv)
    (h : (rpcSync st env).err = none) :
    ∃ cl, (rpcSync st env).state =
      { st with
        rpcClient := some cl
        cancelSync := some ()
        walletBackend := some (Backend.rpc cl)
        loaderBackend := some (Backend.rpc cl) } := by
  unfold rpcSync at h ⊢
  cases hg : getLoadedWalletForSyncing st with
  | some e => simp [hg] at h
  | none =>
    simp only [hg] at h ⊢
    cases hc : st.rpcClient with
    | some cached =>
      refine ⟨cached, ?_⟩
      simp [connectToRpcClient, hc]
    | none =>
      cases hn : env.normalizeResult with
      | none => simp [connectToRpcClient, hc, hn] at h
      | some addr =>
        cases hne : env.newClientErr with
        | some e => simp [connectToRpcClient, hc, hn, hne] at h
        | none =>
          cases hs : env.startResult with
          | invalidAuth => simp [connectToRpcClient, hc, hn, hne, hs] at h
          | canceled => simp [connectToRpcClient, hc, hn, hne, hs] at h
          | otherFailure => simp [connectToRpcClient, hc, hn, hne, hs] at h
          | ok =>
            refine ⟨env.newClient, ?_⟩
            simp [connectToRpcClient, hc, hn, hne, hs]

lemma rescanLoop_no_err (ls : List Nat) (items : List RescanItem)
    (h : ∀ p ∈ items, p.errItem = false) (t : Int) :
    rescanLoop ls t items =
      (progressEvents ls items, t + totalScanned items, false) := by
  induction items generalizing t with
  | nil => simp [rescanLoop, progressEvents, totalScanned]
  | cons p rest ih =>
    have hp : p.errItem = false := h p (by simp)
    have hrest : ∀ q ∈ rest, q.errItem = false :=
      fun q hq => h q (by simp [hq])
    simp [rescanLoop, hp, progressEvents, ih hrest, totalScanned, add_assoc]

/-! ## Claim C1 -/

/-- C1 counterexample: the claim says every passphrase buffer is all-zero on
every exit path, including the wallet-not-loaded failure of `UnlockWallet`;
but on that path the wiping defer has not been registered yet, so calling
`UnlockWallet` with the byte buffer `[7]` while no wallet is loaded returns
the wallet-not-loaded error with the buffer still holding `7`. -/
theorem unlockWallet_not_loaded_keeps_passphrase :
    (unlockWallet false none [7]).err = some Err.walletNotLoaded
    ∧ (unlockWallet false none [7]).buf = [7]
    ∧ allZero (unlockWallet false none [7]).buf = false := by
  refine ⟨rfl, rfl, rfl⟩

/-- C1 (amended): every byte of a passphrase buffer passed to
`ChangePrivatePassphrase` or `ChangePublicPassphrase` is zero when the call
returns, on success and on every failure path, and likewise for
`UnlockWallet` whenever the wallet is loaded; on the wallet-not-loaded early
return of `UnlockWallet`, however, the buffer is returned unmodified, not
wiped. -/
theorem passphrase_wipe_amended (privPass oldP newP oldQ newQ : List Nat)
    (uErr cErr pErr : Option Err) :
    allZero (unlockWallet true uErr privPass).buf = true
    ∧ allZero (changePrivatePassphrase cErr oldP newP).oldBuf = true
    ∧ allZero (changePrivatePassphrase cErr oldP newP).newBuf = true
    ∧ allZero (changePublicPassphrase pErr oldQ newQ).oldBuf = true
    ∧ allZero (changePublicPassphrase pErr oldQ newQ).newBuf = true
    ∧ (unlockWallet false uErr privPass).buf = privPass := by
  refine ⟨?_, ?_, ?_, ?_, ?_, rfl⟩
  · simpa [unlockWallet] using allZero_wipe privPass
  · simpa [changePrivatePassphrase] using allZero_wipe oldP
  · simpa [changePrivatePassphrase] using allZero_wipe newP
  · simpa [changePublicPassphrase] using allZero_wipe_or_empty oldQ
  · simpa [changePublicPassphrase] using allZero_wipe_or_empty newQ

/-! ## Claim C2 -/

/-- C2 (code bug): the source guard is `if lw.wallet.Locked()`, so on the
failing input of an unlocked wallet `LockWallet` does not invoke the
underlying `Lock` operation and leaves the wallet unlocked, while on an
already locked wallet it redundantly invokes `Lock` — exactly the reverse of
the claimed (and clearly intended) behavior. -/
theorem lockWallet_guard_inverted :
    lockWallet { locked := false } =
      { wallet := { locked := false }, lockInvoked := false }
    ∧ (lockWallet { locked := true }).lockInvoked = true := by
  exact ⟨rfl, rfl⟩

/-! ## Claim C3 -/

/-- C3 counterexample: on a loaded wallet with no backend and no cached
client, an `RpcSync` whose server rejects the credentials returns the
generic `ErrInvalid` code, not the distinct `InvalidAuth` kind the claim
names (the source maps `rpcclient.ErrInvalidAuth` to `ErrInvalid`, the same
constant `RescanBlocks` uses for a rescan already running). -/
theorem rpcSync_auth_reject_returns_generic_invalid :
    (rpcSync readyState envAuthReject).err = some Err.invalid
    ∧ (rpcSync readyState envAuthReject).err ≠ some Err.invalidAuth := by
  exact ⟨rfl, by decide⟩

/-- C3 (amended): for every `RpcSync` call in which the RPC server rejects
the supplied credentials (no client is cached, the address normalizes, the
client is created, and `Start` reports invalid authentication), the call
returns the generic `ErrInvalid` error synchronously from the connect step,
no network backend is attached to the wallet or its loader, no notification
is emitted, and no background sync task is launched. -/
theorem rpcSync_auth_reject_amended (st : LWState) (env : RpcEnv)
    (hguard : getLoadedWalletForSyncing st = none)
    (hcache : st.rpcClient = none)
    (hnorm : (env.normalizeResult).isSome = true)
    (hnew : env.newClientErr = none)
    (hauth : env.startResult = StartOutcome.invalidAuth) :
    (rpcSync st env).err = some Err.invalid
    ∧ (rpcSync st env).state.walletBackend = st.walletBackend
    ∧ (rpcSync st env).state.loaderBackend = st.loaderBackend
    ∧ (rpcSync st env).events = []
    ∧ (rpcSync st env).taskLaunched = false := by
  obtain ⟨addr, haddr⟩ := Option.isSome_iff_exists.mp hnorm
  simp [rpcSync, connectToRpcClient, hguard, hcache, haddr, hnew, hauth]

/-- C3 witness: the amended theorem applied to the loaded two-listener state
and the credential-rejecting environment. -/
theorem rpcSync_auth_reject_amended_witness :
    (rpcSync readyState envAuthReject).err = some Err.invalid
    ∧ (rpcSync readyState envAuthReject).state.walletBackend = none
    ∧ (rpcSync readyState envAuthReject).taskLaunched = false := by
  have h := rpcSync_auth_reject_amended readyState envAuthReject
    rfl rfl rfl rfl rfl
  exact ⟨h.1, h.2.1, h.2.2.2.2⟩

/-! ## Claim C4 -/

/-- C4: starting a sync (`SpvSync` or `RpcSync`) when the wallet is not
loaded returns `ErrWalletNotLoaded` and leaves the state untouched; starting
one when the loaded wallet already has a network backend attached returns
`ErrSyncAlreadyInProgress`; and a start that returns no error attaches
exactly one backend, the same one, to the wallet and to its loader. -/
theorem sync_start_guards (st : LWState)
    (normalize : Addr → Option Addr) (peers : Addr) (env : RpcEnv)
    (b : Backend) :
    (st.walletLoaded = false →
      (spvSync normalize st peers).err = some Err.walletNotLoaded
      ∧ (rpcSync st env).err = some Err.walletNotLoaded
      ∧ (spvSync normalize st peers).state = st
      ∧ (rpcSync st env).state = st)
    ∧ (st.walletLoaded = true → st.walletBackend = some b →
      (spvSync normalize st peers).err = some Err.syncAlreadyInProgress
      ∧ (rpcSync st env).err = some Err.syncAlreadyInProgress)
    ∧ ((spvSync normalize st peers).err = none →
      ∃ pb, (spvSync normalize st peers).state.walletBackend = some pb
        ∧ (spvSync normalize st peers).state.loaderBackend = some pb)
    ∧ ((rpcSync st env).err = none →
      ∃ rb, (rpcSync st env).state.walletBackend = some rb
        ∧ (rpcSync st env).state.loaderBackend = some rb) := by
  refine ⟨?_, ?_, ?_, ?_⟩
  · intro hnl
    have hg : getLoadedWalletForSyncing st = some Err.walletNotLoaded := by
      simp [getLoadedWalletForSyncing, hnl]
    simp [spvSync, rpcSync, hg]
  · intro hl hb
    have hg : getLoadedWalletForSyncing st = some Err.syncAlreadyInProgress := by
      simp [getLoadedWalletForSyncing, hl, hb]
    simp [spvSync, rpcSync, hg]
  · intro h
    obtain ⟨pl, hpl⟩ := spvSync_success_state normalize st peers h
    exact ⟨Backend.spv pl, by simp [hpl]⟩
  · intro h
    obtain ⟨cl, hcl⟩ := rpcSync_success_state st env h
    exact ⟨Backend.rpc cl, by simp [hcl]⟩

/-- C4 witness: the guards applied to the unloaded state, to the ready state
with an SPV backend already attached, and the success case at the ready
state with no peer list and a working RPC environment. -/
theorem sync_start_guards_witness :
    (spvSync normOracle { readyState with walletLoaded := false } []).err =
      some Err.walletNotLoaded
    ∧ (rpcSync { readyState with walletBackend := some (Backend.spv []) }
        envAuthReject).err = some Err.syncAlreadyInProgress
    ∧ (spvSync normOracle readyState []).state.walletBackend =
      some (Backend.spv []) := by
  refine ⟨?_, ?_, ?_⟩
  · exact ((sync_start_guards { readyState with walletLoaded := false }
      normOracle [] envAuthReject (Backend.spv [])).1 rfl).1
  · exact ((sync_start_guards
      { readyState with walletBackend := some (Backend.spv []) }
      normOracle [] envAuthReject (Backend.spv [])).2.1 rfl rfl).2
  · rfl

/-! ## Claim C5 -/

/-- C5: for a non-empty semicolon-delimited peer list on a wallet passing the
sync guard, `SpvSync` returns `ErrInvalidPeers` exactly when every entry
fails normalization, attaching nothing and launching nothing in that case;
and when at least one entry normalizes, the call succeeds and launches the
task, each malformed entry having produced one non-fatal `OnSyncError`
notification per registered listener instead of aborting the call. -/
theorem spvSync_peer_validation (normalize : Addr → Option Addr)
    (st : LWState) (peers : Addr)
    (hguard : getLoadedWalletForSyncing st = none)
    (hne : ¬ peers = []) :
    ((spvSync normalize st peers).err = some Err.invalidPeers ↔
      ∀ a ∈ splitSemi peers, normalize a = none)
    ∧ ((spvSync normalize st peers).err = some Err.invalidPeers →
      (spvSync normalize st peers).state = st
      ∧ (spvSync normalize st peers).taskLaunched = false)
    ∧ ((∃ a ∈ splitSemi peers, (normalize a).isSome = true) →
      (spvSync normalize st peers).err = none
      ∧ (spvSync normalize st peers).taskLaunched = true
      ∧ countSyncErrors (spvSync normalize st peers).events =
        ((splitSemi peers).countP (fun a => (normalize a).isNone)) *
          st.syncProgressListeners.length) := by
  by_cases hlen : (filterPeers normalize st.syncProgressListeners
      (splitSemi peers)).1.length = 0
  · have hall : ∀ a ∈ splitSemi peers, normalize a = none :=
      (filterPeers_valid_nil_iff normalize st.syncProgressListeners
        (splitSemi peers)).mp (List.length_eq_zero.mp hlen)
    refine ⟨⟨fun _ => hall, fun _ => ?_⟩, fun _ => ?_, fun hex => ?_⟩
    · simp [spvSync, hguard, hne, hlen]
    · constructor <;> simp [spvSync, hguard, hne, hlen]
    · obtain ⟨a, ha, hs⟩ := hex
      have := hall a ha
      simp [this] at hs
  · have hnn : ¬ (filterPeers normalize st.syncProgressListeners
        (splitSemi peers)).1 = [] := fun hcon => hlen (by simp [hcon])
    have hnotall : ¬ ∀ a ∈ splitSemi peers, normalize a = none :=
      fun hcon => hnn ((filterPeers_valid_nil_iff normalize
        st.syncProgressListeners (splitSemi peers)).mpr hcon)
    refine ⟨⟨fun herr => ?_, fun hcon => absurd hcon hnotall⟩,
      fun herr => ?_, fun _ => ?_⟩
    · simp [spvSync, hguard, hne, hlen, spvAttach] at herr
    · simp [spvSync, hguard, hne, hlen, spvAttach] at herr
    · refine ⟨?_, ?_, ?_⟩
      · simp [spvSync, hguard, hne, hlen, spvAttach]
      · simp [spvSync, hguard, hne, hlen, spvAttach]
      · have := countSyncErrors_filterPeers normalize
          st.syncProgressListeners (splitSemi peers)
        simp [spvSync, hguard, hne, hlen, spvAttach, countSyncErrors] at this ⊢
        exact this

/-- C5 witness: with the oracle accepting exactly `good`, the list
`bad;worse` is rejected with `ErrInvalidPeers`, while `bad;good` succeeds,
launches the task, and emits one `OnSyncError` per listener for the one
malformed entry. -/
theorem spvSync_peer_validation_witness :
    (spvSync normOracle readyState "bad;worse".toList).err = some Err.invalidPeers
    ∧ (spvSync normOracle readyState "bad;good".toList).err = none
    ∧ (spvSync normOracle readyState "bad;good".toList).taskLaunched = true
    ∧ countSyncErrors (spvSync normOracle readyState "bad;good".toList).events = 2 := by
  have h1 := spvSync_peer_validation normOracle readyState "bad;worse".toList
    rfl (by decide)
  have h2 := spvSync_peer_validation normOracle readyState "bad;good".toList
    rfl (by decide)
  have hex : ∃ a ∈ (splitSemi "bad;good".toList), (normOracle a).isSome = true := by
    refine ⟨"good".toList, by decide, by decide⟩
  refine ⟨h1.1.mpr (by decide), (h2.2.2 hex).1, (h2.2.2 hex).2.1, ?_⟩
  have := (h2.2.2 hex).2.2
  simpa using this

/-! ## Claim C6 -/

/-- C6: starting a rescan with no attached backend returns `ErrNotConnected`;
starting one while the `rescanning` flag is set returns `ErrInvalid`; a start
on a connected, non-rescanning wallet launches the task; and the `rescanning`
flag is false after the rescan task exits, whatever the trace (error item,
cancellation, or normal channel closure). -/
theorem rescan_guard_and_flag (st : LWState) (listeners : List Nat)
    (items : List RescanItem) (canceled : Bool) (b : Backend) :
    (st.walletBackend = none →
      rescanBlocks st = { err := some Err.notConnected, taskLaunched := false })
    ∧ (st.walletBackend = some b → st.rescanning = true →
      rescanBlocks st = { err := some Err.invalid, taskLaunched := false })
    ∧ (st.walletBackend = some b → st.rescanning = false →
      rescanBlocks st = { err := none, taskLaunched := true })
    ∧ (rescanTask listeners items canceled).rescanningAfter = false := by
  refine ⟨?_, ?_, ?_, ?_⟩
  · intro h; simp [rescanBlocks, h]
  · intro hb hr; simp [rescanBlocks, hb, hr]
  · intro hb hr; simp [rescanBlocks, hb, hr]
  · unfold rescanTask
    split
    split <;> rfl

/-- C6 witness: the guards at the disconnected and already-rescanning states,
and the cleared flag after an error-item trace and after a normal trace. -/
theorem rescan_guard_and_flag_witness :
    (rescanBlocks readyState).err = some Err.notConnected
    ∧ (rescanBlocks { readyState with
        walletBackend := some (Backend.spv [])
        rescanning := true }).err = some Err.invalid
    ∧ (rescanTask [0, 1] [{ errItem := true, scannedThrough := 3 }]
        false).rescanningAfter = false
    ∧ (rescanTask [0, 1] [{ errItem := false, scannedThrough := 3 }]
        false).rescanningAfter = false := by
  refine ⟨?_, ?_, ?_, ?_⟩
  · have := (rescan_guard_and_flag readyState [] [] false
      (Backend.spv [])).1 rfl
    simp [this]
  · have := ((rescan_guard_and_flag { readyState with
      walletBackend := some (Backend.spv []), rescanning := true }
      [] [] false (Backend.spv [])).2.1) rfl rfl
    simp [this]
  · exact (rescan_guard_and_flag readyState [0, 1]
      [{ errItem := true, scannedThrough := 3 }] false (Backend.spv [])).2.2.2
  · exact (rescan_guard_and_flag readyState [0, 1]
      [{ errItem := false, scannedThrough := 3 }] false (Backend.spv [])).2.2.2

/-! ## Claim C7 -/

/-- C7: for a rescan whose progress channel closes without an error item, the
task emits the per-item `OnRescan(scannedThrough, PROGRESS)` notifications
followed by exactly one final `OnRescan(totalHeight, phase)` per listener,
where `totalHeight` is the accumulated scanned height and the phase is
`PROGRESS` when the governing context was canceled and `FINISH`
otherwise. -/
theorem rescan_terminal_notification (listeners : List Nat)
    (items : List RescanItem) (canceled : Bool)
    (h : ∀ p ∈ items, p.errItem = false) :
    (rescanTask listeners items canceled).events =
      progressEvents listeners items ++
        listeners.map (fun l => Event.onRescan l (totalScanned items)
          (if canceled then Phase.PROGRESS else Phase.FINISH)) := by
  have hr := rescanLoop_no_err listeners items h 0
  simp [rescanTask, hr]

/-- C7 witness: a rescan that processes heights 0..999 (one progress item
scanning through 999) and is then canceled delivers, to each of the two
listeners, the per-item `OnRescan(999, PROGRESS)` and then one final
`OnRescan(999, PROGRESS)` — not `FINISH`. -/
theorem rescan_terminal_notification_witness :
    (rescanTask [0, 1] [{ errItem := false, scannedThrough := 999 }]
        true).events =
      [Event.onRescan 0 999 Phase.PROGRESS, Event.onRescan 1 999 Phase.PROGRESS,
       Event.onRescan 0 999 Phase.PROGRESS, Event.onRescan 1 999 Phase.PROGRESS]
    ∧ ∀ e ∈ (rescanTask [0, 1] [{ errItem := false, scannedThrough := 999 }]
        true).events, e ≠ Event.onRescan 0 999 Phase.FINISH := by
  have h := rescan_terminal_notification [0, 1]
    [{ errItem := false, scannedThrough := 999 }] true (by decide)
  refine ⟨h.trans (by decide), ?_⟩
  rw [h]
  decide

/-! ## Claim C8 -/

/-- C8: when no sync was ever started, so the stored cancellation handle is
nil, `CancelSync` invokes no cancellation and still delivers `OnSynced(false)`
to every registered listener, in registration order. -/
theorem cancelSync_no_handle (st : LWState) (h : st.cancelSync = none) :
    (cancelSyncOp st).cancelInvoked = false
    ∧ (cancelSyncOp st).events =
      st.syncProgressListeners.map (fun l => Event.onSynced l false) := by
  constructor
  · simp [cancelSyncOp, h]
  · rfl

/-- C8 witness: on a fresh state with listeners 5 and then 9 registered and
no cancellation handle, `CancelSync` invokes nothing and notifies 5 then 9
with `OnSynced(false)`. -/
theorem cancelSync_no_handle_witness :
    (cancelSyncOp
      (addSyncProgressListener (addSyncProgressListener idleState 5) 9)
      ).cancelInvoked = false
    ∧ (cancelSyncOp
      (addSyncProgressListener (addSyncProgressListener idleState 5) 9)
      ).events = [Event.onSynced 5 false, Event.onSynced 9 false] := by
  have h := cancelSync_no_handle
    (addSyncProgressListener (addSyncProgressListener idleState 5) 9) rfl
  exact ⟨h.1, h.2.trans (by decide)⟩

/-! ## Claim C9 -/

/-- C9 counterexample: the claim says the stored cancellation handle is
cleared once the background run loop reaches a terminal outcome; but after a
successful `SpvSync` on the ready state whose run loop then returns
`context.Canceled`, the handle is still stored (`some ()`), not nil — no code
path ever clears it. -/
theorem cancelSync_handle_not_cleared :
    (syncTask (spvSync normOracle readyState []).state
        RunOutcome.canceled).1.cancelSync = some ()
    ∧ (syncTask (spvSync normOracle readyState []).state
        RunOutcome.canceled).1.cancelSync ≠ none := by
  exact ⟨rfl, by decide⟩

/-- C9 (amended): the background run loop leaves the stored cancellation
handle exactly as it was on every terminal outcome (canceled,
deadline-exceeded, errored, or clean) — it is never cleared — and after a
successful sync start the handle is therefore still stored (`some ()`) once
the run loop returns. -/
theorem syncTask_preserves_cancel_handle (st : LWState)
    (outcome : RunOutcome) (normalize : Addr → Option Addr) (peers : Addr)
    (env : RpcEnv) :
    (syncTask st outcome).1.cancelSync = st.cancelSync
    ∧ ((spvSync normalize st peers).err = none →
        (syncTask (spvSync normalize st peers).state outcome).1.cancelSync =
          some ())
    ∧ ((rpcSync st env).err = none →
        (syncTask (rpcSync st env).state outcome).1.cancelSync = some ()) := by
  have hkeep : ∀ s : LWState, (syncTask s outcome).1.cancelSync = s.cancelSync := by
    intro s
    cases outcome <;> rfl
  refine ⟨hkeep st, ?_, ?_⟩
  · intro h
    obtain ⟨pl, hpl⟩ := spvSync_success_state normalize st peers h
    rw [hkeep, hpl]
  · intro h
    obtain ⟨cl, hcl⟩ := rpcSync_success_state st env h
    rw [hkeep, hcl]

/-- C9 witness: the amended theorem at the ready state, an empty peer list
and a canceled run loop. -/
theorem syncTask_preserves_cancel_handle_witness :
    (syncTask readyState RunOutcome.canceled).1.cancelSync = none
    ∧ (syncTask (spvSync normOracle readyState []).state
        RunOutcome.canceled).1.cancelSync = some () := by
  have h := syncTask_preserves_cancel_handle readyState RunOutcome.canceled
    normOracle [] envAuthReject
  exact ⟨h.1, h.2.1 rfl⟩

/-! ## Claim C10 -/

/-- C10 counterexample: the claim says every `RpcSync` call made while the
cached RPC client is non-nil succeeds; but on a wallet that is not loaded and
still caches a client, `RpcSync` fails with `ErrWalletNotLoaded` — the guard
runs before the connect step ever sees the cache. -/
theorem rpcSync_cached_client_can_fail_guard :
    unloadedCachedState.rpcClient = some { id := 5 }
    ∧ (rpcSync unloadedCachedState envAuthReject).err =
      some Err.walletNotLoaded
    ∧ (rpcSync unloadedCachedState envAuthReject).err ≠ none := by
  refine ⟨rfl, rfl, by decide⟩

/-- C10 (amended): while the cached RPC client is non-nil,
`connectToRpcClient` succeeds and returns the cached client without
normalizing the address, without attempting a connection or credential
check, and without touching the state; consequently `RpcSync` never returns
`InvalidAddress`, `InvalidAuth`, the generic `Invalid` auth mapping,
`ContextCanceled`, or `Unavailable` for any argument — though it can still
fail its own guard with `WalletNotLoaded` or `SyncAlreadyInProgress`, and it
succeeds whenever that guard passes. -/
theorem rpc_cached_client_reuse (st : LWState) (env : RpcEnv) (c : RPCClient)
    (h : st.rpcClient = some c) :
    connectToRpcClient st env =
      { client := some c
        err := none
        state := st
        normalizeCalled := false
        connectAttempted := false }
    ∧ ((rpcSync st env).err = none
       ∨ (rpcSync st env).err = some Err.walletNotLoaded
       ∨ (rpcSync st env).err = some Err.syncAlreadyInProgress)
    ∧ (rpcSync st env).err ≠ some Err.invalidAddress
    ∧ (rpcSync st env).err ≠ some Err.invalidAuth
    ∧ (rpcSync st env).err ≠ some Err.invalid
    ∧ (rpcSync st env).err ≠ some Err.contextCanceled
    ∧ (rpcSync st env).err ≠ some Err.unavailable
    ∧ (getLoadedWalletForSyncing st = none → (rpcSync st env).err = none) := by
  have hcc : connectToRpcClient st env =
      { client := some c
        err := none
        state := st
        normalizeCalled := false
        connectAttempted := false } := by
    simp [connectToRpcClient, h]
  have herr : (rpcSync st env).err = none
      ∨ (rpcSync st env).err = some Err.walletNotLoaded
      ∨ (rpcSync st env).err = some Err.syncAlreadyInProgress := by
    rcases guard_cases st with hg | hg | hg
    · left
      simp [rpcSync, hg, connectToRpcClient, h]
    · right; left
      simp [rpcSync, hg]
    · right; right
      simp [rpcSync, hg]
  refine ⟨hcc, herr, ?_, ?_, ?_, ?_, ?_, ?_⟩
  · rcases herr with he | he | he <;> simp [he]
  · rcases herr with he | he | he <;> simp [he]
  · rcases herr with he | he | he <;> simp [he]
  · rcases herr with he | he | he <;> simp [he]
  · rcases herr with he | he | he <;> simp [he]
  · intro hg
    simp [rpcSync, hg, connectToRpcClient, h]

/-- C10 witness: the amended theorem at the loaded, cached-client state with
the credential-rejecting environment, whose bad credentials are never even
checked. -/
theorem rpc_cached_client_reuse_witness :
    (connectToRpcClient readyCachedState envAuthReject).client =
      some { id := 5 }
    ∧ (connectToRpcClient readyCachedState envAuthReject).connectAttempted =
      false
    ∧ (rpcSync readyCachedState envAuthReject).err = none := by
  have h := rpc_cached_client_reuse readyCachedState envAuthReject
    { id := 5 } rfl
  refine ⟨?_, ?_, h.2.2.2.2.2.2.2 rfl⟩
  · rw [h.1]
  · rw [h.1]

end Dcrlibwallet
